import Mathlib

/-!
# Verification of the vSphere virtual-device and clone-workflow code

A shallow embedding of two source files of the `terraform-provider-vsphere`
repository:

* `vsphere/internal/virtualdevice/virtual_machine_network_interface_subresource.go`
  (the network-interface subresource: ethernet-card conversions, `Read`,
  `Update`, and the PCI slot allocator `assignEthernetCard`), and
* the `vmworkflow` clone file (`validateCloneSnapshots`,
  `ValidateVirtualMachineClone`, `ExpandVirtualMachineCloneSpec`).

Go interface values (`types.BaseVirtualDevice`, `types.BaseVirtualEthernetCard`)
are collapsed into the single inductive `Device`: the Go type switches over the
closed set of six ethernet-card struct types become matches on its
constructors.  Pointer mutation becomes functional record update.  Fallible Go
calls (`func ... (T, error)`) become `Except String T` with the literal
`fmt.Errorf` message text.  Go `panic` becomes `Option` (`none` = panic) or a
dedicated error string where noted.  External collaborators that are not part
of the two source files (the govmomi device-list helpers, the name resolvers
and the Terraform schema layer) are modelled from the spec, each marked
`Modelled from the spec:` in its doc comment.
-/

set_option autoImplicit false

/-- A vSphere managed object reference, reduced to the only field the sources
read from it, its `Value` string. -/
structure ManagedObjectReference where
  value : String
  deriving DecidableEq, Repr

/-- The base `types.VirtualDevice` fields used by the sources: the device
`Key`, the `ControllerKey` back-reference, and the nullable `UnitNumber`
(`*int32` in Go, `Option Int` here). -/
structure VirtualDevice where
  key : Int
  controllerKey : Int
  unitNumber : Option Int
  deriving DecidableEq, Repr

/-- `types.VirtualEthernetCardResourceAllocation`: `Limit` and `Reservation`
are `*int64` (nullable), `Share` is a `SharesInfo` with `Shares : int32` and a
string `Level`. -/
structure VirtualEthernetCardResourceAllocation where
  limit : Option Int
  reservation : Option Int
  shares : Int
  level : String
  deriving DecidableEq, Repr

/-- The backing of an ethernet card, a closed set of the backing struct types
the `Read` path dispatches on:

* `network` models `types.VirtualEthernetCardNetworkBackingInfo`, whose
  `Network` field is a nullable `*ManagedObjectReference`;
* `nsxNetwork` models the NSX backing
  (`types.VirtualEthernetCard` + `NetworkBackingInfo` for an NSX switch, whose
  network id string is the field read by the code);
* `distributedVirtualPort` models
  `types.VirtualEthernetCardDistributedVirtualPortBackingInfo`, carrying
  `Port.SwitchUuid` and `Port.PortgroupKey`;
* `otherBacking` stands for any other backing type, carrying the Go type name
  that `%T` would print. -/
inductive BackingInfo where
  | network (network : Option ManagedObjectReference)
  | nsxNetwork (networkId : String)
  | distributedVirtualPort (switchUuid : String) (portgroupKey : String)
  | otherBacking (typeName : String)
  deriving DecidableEq, Repr

/-- `types.VirtualEthernetCard`: the embedded `VirtualDevice` fields plus the
ethernet-card fields the sources use. -/
structure VirtualEthernetCard where
  key : Int
  controllerKey : Int
  unitNumber : Option Int
  addressType : String
  macAddress : String
  backing : BackingInfo
  resourceAllocation : Option VirtualEthernetCardResourceAllocation
  deriving DecidableEq, Repr

/-- A device value of the list, i.e. a Go `types.BaseVirtualDevice` interface
value.  The six ethernet-card constructors are exactly the six struct types
the source's type switches enumerate; `otherDevice` is any other device type,
carrying the Go type name that `%T` would print and its base
`VirtualDevice`. -/
inductive Device where
  | virtualE1000 (card : VirtualEthernetCard)
  | virtualE1000e (card : VirtualEthernetCard)
  | virtualPCNet32 (card : VirtualEthernetCard)
  | virtualSriovEthernetCard (card : VirtualEthernetCard)
  | virtualVmxnet2 (card : VirtualEthernetCard)
  | virtualVmxnet3 (card : VirtualEthernetCard)
  | otherDevice (typeName : String) (base : VirtualDevice)
  deriving DecidableEq, Repr

/-- `GetVirtualEthernetCard()`: projects the ethernet-card struct.  In Go this
method only exists on `BaseVirtualEthernetCard` values; the `otherDevice`
default is unreachable in every use below, which all sit behind a successful
`baseVirtualDeviceToBaseVirtualEthernetCard` conversion. -/
def Device.getVirtualEthernetCard : Device → VirtualEthernetCard
  | .virtualE1000 c | .virtualE1000e c | .virtualPCNet32 c
  | .virtualSriovEthernetCard c | .virtualVmxnet2 c | .virtualVmxnet3 c => c
  | .otherDevice _ b =>
    { key := b.key, controllerKey := b.controllerKey, unitNumber := b.unitNumber,
      addressType := "", macAddress := "", backing := .otherBacking "",
      resourceAllocation := none }

/-- `GetVirtualDevice()`: projects the embedded base `VirtualDevice`. -/
def Device.getVirtualDevice : Device → VirtualDevice
  | .otherDevice _ b => b
  | d =>
    { key := d.getVirtualEthernetCard.key,
      controllerKey := d.getVirtualEthernetCard.controllerKey,
      unitNumber := d.getVirtualEthernetCard.unitNumber }

/-- Writing through the pointer returned by `GetVirtualDevice()`: replaces
exactly the three base fields, leaving every other field of the device
untouched. -/
def Device.setVirtualDevice : Device → VirtualDevice → Device
  | .virtualE1000 c, b =>
    .virtualE1000 { c with key := b.key, controllerKey := b.controllerKey, unitNumber := b.unitNumber }
  | .virtualE1000e c, b =>
    .virtualE1000e { c with key := b.key, controllerKey := b.controllerKey, unitNumber := b.unitNumber }
  | .virtualPCNet32 c, b =>
    .virtualPCNet32 { c with key := b.key, controllerKey := b.controllerKey, unitNumber := b.unitNumber }
  | .virtualSriovEthernetCard c, b =>
    .virtualSriovEthernetCard { c with key := b.key, controllerKey := b.controllerKey, unitNumber := b.unitNumber }
  | .virtualVmxnet2 c, b =>
    .virtualVmxnet2 { c with key := b.key, controllerKey := b.controllerKey, unitNumber := b.unitNumber }
  | .virtualVmxnet3 c, b =>
    .virtualVmxnet3 { c with key := b.key, controllerKey := b.controllerKey, unitNumber := b.unitNumber }
  | .otherDevice t _, b => .otherDevice t b

/-- Writing through the pointer returned by `GetVirtualEthernetCard()`:
replaces the whole ethernet-card struct, keeping the concrete card type.  On a
non-ethernet device it is a no-op (unreachable in the code below). -/
def Device.withCard : Device → VirtualEthernetCard → Device
  | .virtualE1000 _, c => .virtualE1000 c
  | .virtualE1000e _, c => .virtualE1000e c
  | .virtualPCNet32 _, c => .virtualPCNet32 c
  | .virtualSriovEthernetCard _, c => .virtualSriovEthernetCard c
  | .virtualVmxnet2 _, c => .virtualVmxnet2 c
  | .virtualVmxnet3 _, c => .virtualVmxnet3 c
  | .otherDevice t b, _ => .otherDevice t b

/-- Whether a device value is one of the six supported ethernet-card types
(i.e. whether the Go value would satisfy a `types.BaseVirtualEthernetCard`
type assertion for one of the six cases of the source's switches). -/
def Device.isEthernetCard : Device → Bool
  | .otherDevice _ _ => false
  | _ => true

/-- `baseVirtualEthernetCardToBaseVirtualDevice` from the source: a type
switch over the six ethernet-card types, returning the same value as a
`BaseVirtualDevice`; any other type hits the Go `panic`, modelled as
`none`. -/
def baseVirtualEthernetCardToBaseVirtualDevice : Device → Option Device
  | .virtualE1000 c => some (.virtualE1000 c)
  | .virtualE1000e c => some (.virtualE1000e c)
  | .virtualPCNet32 c => some (.virtualPCNet32 c)
  | .virtualSriovEthernetCard c => some (.virtualSriovEthernetCard c)
  | .virtualVmxnet2 c => some (.virtualVmxnet2 c)
  | .virtualVmxnet3 c => some (.virtualVmxnet3 c)
  | .otherDevice _ _ => none

/-- `baseVirtualDeviceToBaseVirtualEthernetCard` from the source: a type
switch over the six ethernet-card types, returning the same value as a
`BaseVirtualEthernetCard`; any other type returns the
`"device is not a network device (%T)"` error. -/
def baseVirtualDeviceToBaseVirtualEthernetCard : Device → Except String Device
  | .virtualE1000 c => .ok (.virtualE1000 c)
  | .virtualE1000e c => .ok (.virtualE1000e c)
  | .virtualPCNet32 c => .ok (.virtualPCNet32 c)
  | .virtualSriovEthernetCard c => .ok (.virtualSriovEthernetCard c)
  | .virtualVmxnet2 c => .ok (.virtualVmxnet2 c)
  | .virtualVmxnet3 c => .ok (.virtualVmxnet3 c)
  | .otherDevice t _ => .error ("device is not a network device (" ++ t ++ ")")

/-- A `types.BaseVirtualController` value, reduced to the only field
`assignEthernetCard` reads from it via `GetVirtualController()`: its key. -/
structure VirtualController where
  key : Int
  deriving DecidableEq, Repr

/-- The PCI device offset local constant of `assignEthernetCard`: vSphere
starts assigning virtual NICs at PCI unit number 7. -/
def pciDeviceOffset : Int := 7

/-- One iteration of the `for _, device := range l` loop of
`assignEthernetCard`: skip devices on another controller, with no unit
number, or with a unit number outside `[offset, offset+10)`; otherwise mark
the corresponding slot of the 10-entry `units` buffer. -/
def assignStep (ckey : Int) (units : List Bool) (dev : Device) : List Bool :=
  let d := dev.getVirtualDevice
  match d.unitNumber with
  | none => units
  | some un =>
    if d.controllerKey ≠ ckey ∨ un < pciDeviceOffset ∨ un ≥ pciDeviceOffset + 10 then
      units
    else
      units.set (un - pciDeviceOffset).toNat true

/-- The `for unit, used := range units` loop of `assignEthernetCard`: the
index of the first `false` entry, if any (the Go loop leaves `newUnit = -1`
when there is none). -/
def firstFree : List Bool → Option Nat
  | [] => none
  | used :: rest => if used then (firstFree rest).map (· + 1) else some 0

/-- `assignEthernetCard` from the source: scans the current device list for
occupied PCI NIC slots on controller `c` (10 slots starting at unit 7), picks
the lowest free one, and writes `ControllerKey`/`UnitNumber` (and a `-1`
placeholder `Key` when the key was still 0) into `device`.  Errors when every
slot is taken.  The function reads but never writes `l`, so the updated
device is the only output. -/
def assignEthernetCard (l : List Device) (device : Device) (c : VirtualController) :
    Except String Device :=
  let ckey := c.key
  let units := List.foldl (assignStep ckey) (List.replicate 10 false) l
  let newUnit : Int :=
    match firstFree units with
    | some unit => (unit : Int) + pciDeviceOffset
    | none => -1
  if newUnit < 0 then
    .error "there are no more available slots on the PCI bus"
  else
    let d := device.getVirtualDevice
    let d' := { d with controllerKey := c.key, unitNumber := some newUnit }
    let d'' := if d'.key = 0 then { d' with key := -1 } else d'
    .ok (device.setVirtualDevice d'')

/-- Whether some device of `l` attached to controller key `ckey` occupies
unit number `u` (the occupancy notion `assignEthernetCard`'s scan tests slot
by slot). -/
def slotOccupied (l : List Device) (ckey u : Int) : Bool :=
  l.any fun dev =>
    decide (dev.getVirtualDevice.controllerKey = ckey ∧
      dev.getVirtualDevice.unitNumber = some u)

/-- `types.VirtualDeviceConfigSpecOperationAdd`. -/
def VirtualDeviceConfigSpecOperationAdd : String := "add"

/-- `types.VirtualDeviceConfigSpecOperationRemove`. -/
def VirtualDeviceConfigSpecOperationRemove : String := "remove"

/-- `types.VirtualDeviceConfigSpecOperationEdit`. -/
def VirtualDeviceConfigSpecOperationEdit : String := "edit"

/-- `types.VirtualEthernetCardMacTypeManual`. -/
def VirtualEthernetCardMacTypeManual : String := "manual"

/-- `types.VirtualEthernetCardMacTypeGenerated`. -/
def VirtualEthernetCardMacTypeGenerated : String := "generated"

/-- `types.VirtualEthernetCardMacTypeAssigned`. -/
def VirtualEthernetCardMacTypeAssigned : String := "assigned"

/-- One change instruction, `types.VirtualDeviceConfigSpec`: the operation and
the full device record it carries (the `FileOperation` field is never set for
ethernet cards and is omitted). -/
structure VirtualDeviceConfigSpec where
  operation : String
  device : Device
  deriving DecidableEq, Repr

/-- Modelled from the spec: govmomi's `VirtualDeviceList.ConfigSpec`, the
change-spec constructor the source calls as
`object.VirtualDeviceList{d}.ConfigSpec(op)` — for a known operation it wraps
each device of the list into one change spec carrying that operation, and it
fails on an unknown operation. -/
def configSpec (l : List Device) (op : String) : Except String (List VirtualDeviceConfigSpec) :=
  if op = VirtualDeviceConfigSpecOperationAdd ∨ op = VirtualDeviceConfigSpecOperationEdit ∨
      op = VirtualDeviceConfigSpecOperationRemove then
    .ok (l.map fun d => { operation := op, device := d })
  else
    .error ("invalid operation " ++ op)

/-- Modelled from the spec: govmomi's `VirtualDeviceList.NewKey`, called as
`l.NewKey()` — returns a locally-negative placeholder key for a device pending
creation, strictly below `-200` and below every key already in the list. -/
def newKey (l : List Device) : Int :=
  (l.foldl (fun k d => if d.getVirtualDevice.key < k then d.getVirtualDevice.key else k) (-200)) - 1

/-- Modelled from the spec: govmomi's `VirtualDeviceList.CreateEthernetCard`,
called as `l.CreateEthernetCard(adapterType, backing)` — builds a fresh,
zero-valued ethernet card of the named adapter type with the given backing
attached (an empty name defaults to the first known type, `e1000`), and fails
on an unknown adapter-type name. -/
def createEthernetCard (adapterType : String) (backing : BackingInfo) : Except String Device :=
  let blank : VirtualEthernetCard :=
    { key := 0, controllerKey := 0, unitNumber := none, addressType := "",
      macAddress := "", backing := backing, resourceAllocation := none }
  if adapterType = "e1000" ∨ adapterType = "" then .ok (.virtualE1000 blank)
  else if adapterType = "e1000e" then .ok (.virtualE1000e blank)
  else if adapterType = "pcnet32" then .ok (.virtualPCNet32 blank)
  else if adapterType = "sriov" then .ok (.virtualSriovEthernetCard blank)
  else if adapterType = "vmxnet2" then .ok (.virtualVmxnet2 blank)
  else if adapterType = "vmxnet3" then .ok (.virtualVmxnet3 blank)
  else .error ("unknown ethernet card type \x27" ++ adapterType ++ "\x27")

/-- Modelled from the spec: `Subresource.FindVirtualDevice` (the shared
subresource base, outside the embedded files) — locates the device record by
the persisted key of the declared entry and fails when the key is absent from
the current list (`DeviceNotFound`). -/
def findVirtualDevice (l : List Device) (key : Int) : Except String Device :=
  match l.find? (fun d => decide (d.getVirtualDevice.key = key)) with
  | some d => .ok d
  | none => .error "device not found"

/-- The adapter-type constant `networkInterfaceSubresourceTypeE1000`. -/
def networkInterfaceSubresourceTypeE1000 : String := "e1000"

/-- The adapter-type constant `networkInterfaceSubresourceTypeVmxnet3`. -/
def networkInterfaceSubresourceTypeVmxnet3 : String := "vmxnet3"

/-- The adapter-type constant `networkInterfaceSubresourceTypeUnknown`. -/
def networkInterfaceSubresourceTypeUnknown : String := "unknown"

/-- The declared/persisted attribute set of one `network_interface` entry, the
fields of `networkInterfaceSubresourceSchema` that `Read`/`Update` get and
set through the Terraform state (`r.Get`/`r.Set`). -/
structure NetworkInterfaceData where
  networkId : String
  adapterType : String
  useStaticMac : Bool
  macAddress : String
  bandwidthLimit : Int
  bandwidthReservation : Int
  bandwidthShareLevel : String
  bandwidthShareCount : Int
  key : Int
  deriving DecidableEq, Repr

/-- The `NetworkInterfaceSubresource` receiver state seen by `Read`/`Update`:
the declared data (`r.Get` reads it, `r.Set` updates it), plus the parts
modelled from the spec because they live outside the embedded files:

* `hasChangeDeviceType`/`hasChangeUseStaticMac` model the Terraform change
  oracles `r.HasChange("device_type")` and `r.HasChange("use_static_mac")`;
* `apiType` models `r.client.ServiceContent.About.ApiType`;
* `nsxFromNetworkID` models the name resolver
  `nsx.OpaqueNetworkFromNetworkID(r.client, ·)` reduced to the reference it
  returns;
* `dvPortgroupFromKey` models the name resolver
  `dvportgroup.FromKey(r.client, switchUuid, portgroupKey)` reduced to the
  reference it returns. -/
structure NetworkInterfaceSubresource where
  data : NetworkInterfaceData
  hasChangeDeviceType : Bool
  hasChangeUseStaticMac : Bool
  apiType : String
  nsxFromNetworkID : String → Except String ManagedObjectReference
  dvPortgroupFromKey : String → String → Except String ManagedObjectReference

/-- `NetworkInterfaceSubresource.Read` from the source: finds the device by
persisted key, requires it to be an ethernet card, sets `adapter_type` from
the concrete card type (with the `"unknown"` fallback), dispatches on the
backing kind to resolve and store the canonical `network_id`, then copies the
MAC, bandwidth-allocation and `key` fields into the data.  Returns the updated
data (in Go the updates go through `r.Set`). -/
def NetworkInterfaceSubresource.Read (r : NetworkInterfaceSubresource) (l : List Device) :
    Except String NetworkInterfaceData :=
  match findVirtualDevice l r.data.key with
  | .error e => .error ("cannot find network device: " ++ e)
  | .ok vd =>
    match baseVirtualDeviceToBaseVirtualEthernetCard vd with
    | .error e => .error e
    | .ok device =>
      let data := { r.data with adapterType :=
        match device with
        | .virtualVmxnet3 _ => networkInterfaceSubresourceTypeVmxnet3
        | .virtualE1000 _ => networkInterfaceSubresourceTypeE1000
        | _ => networkInterfaceSubresourceTypeUnknown }
      let card := device.getVirtualEthernetCard
      let netIDResult : Except String String :=
        match card.backing with
        | .network n =>
          match n with
          | none => .error "could not determine network information from NIC backing"
          | some ref => .ok ref.value
        | .nsxNetwork onid =>
          match r.nsxFromNetworkID onid with
          | .error e => .error e
          | .ok onet => .ok onet.value
        | .distributedVirtualPort sw pgk =>
          match r.dvPortgroupFromKey sw pgk with
          | .error e => .error e
          | .ok pg => .ok pg.value
        | .otherBacking t => .error ("unknown network interface backing " ++ t)
      match netIDResult with
      | .error e => .error e
      | .ok netID =>
        let data := { data with networkId := netID }
        let data := { data with
          useStaticMac := decide (card.addressType = VirtualEthernetCardMacTypeManual),
          macAddress := card.macAddress }
        let data :=
          match card.resourceAllocation with
          | some alloc =>
            { data with
              bandwidthLimit := alloc.limit.getD 0,
              bandwidthReservation := alloc.reservation.getD 0,
              bandwidthShareCount := alloc.shares,
              bandwidthShareLevel := alloc.level }
          | none => data
        .ok { data with key := card.key }

/-- `NetworkInterfaceSubresource.Update` from the source: finds the device by
persisted key and requires it to be an ethernet card.  When the force-replace
oracle (`r.HasChange("device_type")`) fires, it fabricates a fresh card of the
declared adapter type over the old card's backing, copies the old controller
key and (when present) unit number onto it, gives it a fresh negative key, and
pushes a "remove" change spec for the old device; the new device then takes
the old one's place.  It then applies the MAC-address and bandwidth-allocation
changes to the (possibly replaced) card and emits the final change spec with
the "add" operation when the card's key is negative, "edit" otherwise. -/
def NetworkInterfaceSubresource.Update (r : NetworkInterfaceSubresource) (l : List Device) :
    Except String (List VirtualDeviceConfigSpec) :=
  match findVirtualDevice l r.data.key with
  | .error e => .error ("cannot find network device: " ++ e)
  | .ok vd =>
    match baseVirtualDeviceToBaseVirtualEthernetCard vd with
    | .error e => .error e
    | .ok device0 =>
      let replaced : Except String (List VirtualDeviceConfigSpec × Device) :=
        if r.hasChangeDeviceType then
          let card := device0.getVirtualEthernetCard
          match createEthernetCard r.data.adapterType card.backing with
          | .error e => .error e
          | .ok newDevice =>
            let newCard := newDevice.getVirtualEthernetCard
            let newCard := { newCard with controllerKey := card.controllerKey }
            let newCard :=
              match card.unitNumber with
              | some un => { newCard with unitNumber := some un }
              | none => newCard
            let newCard := { newCard with key := newKey l }
            let newDevice := newDevice.withCard newCard
            match baseVirtualEthernetCardToBaseVirtualDevice device0 with
            | none => .error "panic: unknown ethernet card type"
            | some bvd =>
              match configSpec [bvd] VirtualDeviceConfigSpecOperationRemove with
              | .error e => .error e
              | .ok dspec =>
                match baseVirtualDeviceToBaseVirtualEthernetCard newDevice with
                | .error e => .error e
                | .ok device1 => .ok (dspec, device1)
        else .ok ([], device0)
      match replaced with
      | .error e => .error e
      | .ok (spec, device) =>
        let card := device.getVirtualEthernetCard
        let card :=
          if r.hasChangeUseStaticMac then
            if r.data.useStaticMac then
              { card with addressType := VirtualEthernetCardMacTypeManual,
                          macAddress := r.data.macAddress }
            else if r.apiType ≠ "VirtualCenter" then
              { card with addressType := VirtualEthernetCardMacTypeGenerated, macAddress := "" }
            else
              { card with addressType := VirtualEthernetCardMacTypeAssigned, macAddress := "" }
          else card
        let alloc : VirtualEthernetCardResourceAllocation :=
          { limit := some r.data.bandwidthLimit,
            reservation := some r.data.bandwidthReservation,
            shares := r.data.bandwidthShareCount,
            level := r.data.bandwidthShareLevel }
        let card := { card with resourceAllocation := some alloc }
        let device := device.withCard card
        let op :=
          if card.key < 0 then VirtualDeviceConfigSpecOperationAdd
          else VirtualDeviceConfigSpecOperationEdit
        match baseVirtualEthernetCardToBaseVirtualDevice device with
        | none => .error "panic: unknown ethernet card type"
        | some bvd =>
          match configSpec [bvd] op with
          | .error e => .error e
          | .ok uspec => .ok (spec ++ uspec)

/-- `types.VirtualMachinePowerStatePoweredOff`. -/
def VirtualMachinePowerStatePoweredOff : String := "poweredOff"

/-- `types.VirtualMachineRelocateDiskMoveOptionsCreateNewChildDiskBacking`. -/
def VirtualMachineRelocateDiskMoveOptionsCreateNewChildDiskBacking : String :=
  "createNewChildDiskBacking"

/-- `types.VirtualMachineSnapshotTree`: the snapshot reference of one node and
its child list. -/
structure VirtualMachineSnapshotTree where
  snapshot : ManagedObjectReference
  childSnapshotList : List VirtualMachineSnapshotTree

/-- `types.VirtualMachineSnapshotInfo`: the current snapshot (a
`*ManagedObjectReference`; the sources dereference it unconditionally, so it
is kept non-nullable here) and the root snapshot list. -/
structure VirtualMachineSnapshotInfo where
  currentSnapshot : ManagedObjectReference
  rootSnapshotList : List VirtualMachineSnapshotTree

/-- The `mo.VirtualMachine` property set, reduced to the fields the clone
workflow reads: `Config.Uuid`, `Runtime.PowerState` and the nullable
`Snapshot` info. -/
structure MoVirtualMachine where
  uuid : String
  powerState : String
  snapshot : Option VirtualMachineSnapshotInfo

/-- `validateCloneSnapshots` from the source: requires a snapshot to be
present, exactly one root snapshot, no children on that root, and the current
snapshot to equal the root snapshot. -/
def validateCloneSnapshots (props : MoVirtualMachine) : Except String Unit :=
  match props.snapshot with
  | none =>
    .error ("virtual machine or template " ++ props.uuid ++
      " must have a snapshot to be used as a linked clone")
  | some si =>
    match si.rootSnapshotList with
    | [root] =>
      if root.childSnapshotList.length > 0 then
        .error ("virtual machine or template " ++ props.uuid ++
          "\x27s root snapshot must not have children")
      else if si.currentSnapshot.value ≠ root.snapshot.value then
        .error ("virtual machine or template " ++ props.uuid ++
          "\x27s current snapshot must match root snapshot")
      else .ok ()
    | other =>
      .error ("virtual machine or template " ++ props.uuid ++
        " must have exactly one root snapshot (has: " ++ toString other.length ++ ")")

/-- The clone-relevant resource data: `datastore_id`,
`clone.0.template_uuid` and `clone.0.linked_clone`. -/
structure CloneResourceData where
  datastoreId : String
  templateUuid : String
  linkedClone : Bool
  deriving DecidableEq, Repr

/-- Modelled from the spec: the external collaborators the clone workflow
calls and which are outside the embedded files —

* `datastoreFromID` models `datastore.FromID(c, ·)` reduced to the reference
  `ds.Reference()` it yields;
* `vmFromUUID` models `virtualmachine.FromUUID(c, ·)`, yielding a handle to
  the located virtual machine;
* `vmProperties` models `virtualmachine.Properties(vm)` on such a handle;
* `diskCloneValidate` models `virtualdevice.DiskCloneValidateOperation`;
* `diskCloneRelocate` models `virtualdevice.DiskCloneRelocateOperation`,
  yielding the per-disk relocators (kept as an abstract list). -/
structure CloneEnv where
  datastoreFromID : String → Except String ManagedObjectReference
  vmFromUUID : String → Except String Nat
  vmProperties : Nat → Except String MoVirtualMachine
  diskCloneValidate : Except String Unit
  diskCloneRelocate : Except String (List String)

/-- `ValidateVirtualMachineClone` from the source: locates the source VM and
its properties, requires it to be powered off, runs the snapshot validation
when a linked clone is requested, then hands off to the disk clone
validation. -/
def ValidateVirtualMachineClone (env : CloneEnv) (d : CloneResourceData) : Except String Unit :=
  match env.vmFromUUID d.templateUuid with
  | .error e =>
    .error ("cannot locate virtual machine or template with UUID \"" ++
      d.templateUuid ++ "\": " ++ e)
  | .ok vm =>
    match env.vmProperties vm with
    | .error e => .error ("error fetching virtual machine or template properties: " ++ e)
    | .ok vprops =>
      if vprops.powerState ≠ VirtualMachinePowerStatePoweredOff then
        .error ("virtual machine " ++ d.templateUuid ++
          " must be powered off to be used as a source for cloning")
      else
        match (if d.linkedClone then validateCloneSnapshots vprops else .ok ()) with
        | .error e => .error e
        | .ok _ =>
          match env.diskCloneValidate with
          | .error e => .error e
          | .ok _ => .ok ()

/-- The relevant fields of `types.VirtualMachineRelocateSpec`: the target
datastore, the disk move type and the per-disk relocators.  Every field
starts at its Go zero value. -/
structure VirtualMachineRelocateSpec where
  datastore : Option ManagedObjectReference := none
  diskMoveType : String := ""
  disk : List String := []
  deriving DecidableEq, Repr

/-- The relevant fields of `types.VirtualMachineCloneSpec`: the relocate spec
and the nullable source-snapshot reference, both starting at their Go zero
values. -/
structure VirtualMachineCloneSpec where
  location : VirtualMachineRelocateSpec := {}
  snapshot : Option ManagedObjectReference := none
  deriving DecidableEq, Repr

/-- `ExpandVirtualMachineCloneSpec` from the source: resolves the target
datastore into `Location.Datastore`, locates the source VM and its
properties, and — only when a linked clone is requested — re-runs the
snapshot validation, stores the current snapshot reference into `Snapshot`
and sets `Location.DiskMoveType` to `createNewChildDiskBacking`; finally it
stores the disk relocators into `Location.Disk`.  There is no power-state
check on this path.  (The dereference of `vprops.Snapshot` after a
successful validation cannot be `nil`; the dead branch models the Go nil
dereference panic.) -/
def ExpandVirtualMachineCloneSpec (env : CloneEnv) (d : CloneResourceData) :
    Except String VirtualMachineCloneSpec :=
  match env.datastoreFromID d.datastoreId with
  | .error e => .error ("error locating datastore for VM: " ++ e)
  | .ok ds =>
    let spec : VirtualMachineCloneSpec := { location := { datastore := some ds } }
    match env.vmFromUUID d.templateUuid with
    | .error e =>
      .error ("cannot locate virtual machine or template with UUID \"" ++
        d.templateUuid ++ "\": " ++ e)
    | .ok vm =>
      match env.vmProperties vm with
      | .error e => .error ("error fetching virtual machine or template properties: " ++ e)
      | .ok vprops =>
        let linkedStep : Except String VirtualMachineCloneSpec :=
          if d.linkedClone then
            match validateCloneSnapshots vprops with
            | .error e => .error e
            | .ok _ =>
              match vprops.snapshot with
              | none => .error "invalid memory address or nil pointer dereference"
              | some si =>
                .ok { spec with
                  snapshot := some si.currentSnapshot,
                  location := { spec.location with
                    diskMoveType :=
                      VirtualMachineRelocateDiskMoveOptionsCreateNewChildDiskBacking } }
          else .ok spec
        match linkedStep with
        | .error e => .error e
        | .ok spec1 =>
          match env.diskCloneRelocate with
          | .error e => .error e
          | .ok relocators =>
            .ok { spec1 with location := { spec1.location with disk := relocators } }

/-! ## Helper lemmas on the device model -/

theorem isEthernetCard_toBaseVirtualDevice (d : Device) (h : d.isEthernetCard = true) :
    baseVirtualEthernetCardToBaseVirtualDevice d = some d := by
  cases d <;> simp_all [Device.isEthernetCard, baseVirtualEthernetCardToBaseVirtualDevice]

theorem isEthernetCard_toBaseVirtualEthernetCard (d : Device) (h : d.isEthernetCard = true) :
    baseVirtualDeviceToBaseVirtualEthernetCard d = .ok d := by
  cases d <;> simp_all [Device.isEthernetCard, baseVirtualDeviceToBaseVirtualEthernetCard]

theorem toBaseVirtualEthernetCard_ok {d e : Device}
    (h : baseVirtualDeviceToBaseVirtualEthernetCard d = .ok e) :
    e = d ∧ d.isEthernetCard = true := by
  cases d <;> simp_all [Device.isEthernetCard, baseVirtualDeviceToBaseVirtualEthernetCard]

theorem getVirtualEthernetCard_withCard (d : Device) (c : VirtualEthernetCard)
    (h : d.isEthernetCard = true) : (d.withCard c).getVirtualEthernetCard = c := by
  cases d <;> simp_all [Device.isEthernetCard, Device.withCard, Device.getVirtualEthernetCard]

theorem isEthernetCard_withCard (d : Device) (c : VirtualEthernetCard) :
    (d.withCard c).isEthernetCard = d.isEthernetCard := by
  cases d <;> rfl

theorem getVirtualDevice_eq_of_isEthernetCard (d : Device) (h : d.isEthernetCard = true) :
    d.getVirtualDevice =
      { key := d.getVirtualEthernetCard.key,
        controllerKey := d.getVirtualEthernetCard.controllerKey,
        unitNumber := d.getVirtualEthernetCard.unitNumber } := by
  cases d <;> simp_all [Device.isEthernetCard, Device.getVirtualDevice]

theorem createEthernetCard_ok {t : String} {b : BackingInfo} {nd : Device}
    (h : createEthernetCard t b = .ok nd) :
    nd.isEthernetCard = true ∧
      nd.getVirtualEthernetCard =
        { key := 0, controllerKey := 0, unitNumber := none, addressType := "",
          macAddress := "", backing := b, resourceAllocation := none } := by
  unfold createEthernetCard at h
  repeat' split at h
  all_goals simp at h
  all_goals subst h
  all_goals exact ⟨rfl, rfl⟩

theorem newKey_neg (l : List Device) : newKey l < 0 := by
  unfold newKey
  have h : ∀ (a : Int) (ls : List Device), a ≤ -200 →
      (ls.foldl (fun k d => if d.getVirtualDevice.key < k then d.getVirtualDevice.key else k) a)
        ≤ -200 := by
    intro a ls
    induction ls generalizing a with
    | nil => intro ha; simpa using ha
    | cons x xs ih =>
      intro ha
      simp only [List.foldl_cons]
      by_cases hx : x.getVirtualDevice.key < a
      · exact ih _ (by simp [hx]; omega)
      · exact ih _ (by simp [hx]; omega)
  have := h (-200) l (by omega)
  omega

/-- **C10.** For every value `v` of one of the six supported ethernet-card
types, `baseVirtualDeviceToBaseVirtualEthernetCard`
(`baseVirtualEthernetCardToBaseVirtualDevice v`) succeeds and returns `v`
(round trip), the panic branch of `baseVirtualEthernetCardToBaseVirtualDevice`
is unreachable, and `baseVirtualDeviceToBaseVirtualEthernetCard` errors
exactly on values outside these six types. -/
theorem ethernetCard_conversion_round_trip (v : Device) :
    (v.isEthernetCard = true →
      ∃ bvd, baseVirtualEthernetCardToBaseVirtualDevice v = some bvd ∧
        baseVirtualDeviceToBaseVirtualEthernetCard bvd = .ok v) ∧
    (v.isEthernetCard = false →
      baseVirtualEthernetCardToBaseVirtualDevice v = none ∧
        ∃ t b, v = .otherDevice t b ∧
          baseVirtualDeviceToBaseVirtualEthernetCard v =
            .error ("device is not a network device (" ++ t ++ ")")) := by
  constructor
  · intro h
    exact ⟨v, isEthernetCard_toBaseVirtualDevice v h,
      isEthernetCard_toBaseVirtualEthernetCard v h⟩
  · intro h
    cases v <;> simp_all [Device.isEthernetCard, baseVirtualEthernetCardToBaseVirtualDevice,
      baseVirtualDeviceToBaseVirtualEthernetCard]

/-- Witness for C10 at a concrete `VirtualVmxnet2` card. -/
theorem ethernetCard_conversion_round_trip_witness :
    (Device.virtualVmxnet2
        { key := 5, controllerKey := 100, unitNumber := some 8, addressType := "manual",
          macAddress := "00:11:22:33:44:55", backing := .otherBacking "b",
          resourceAllocation := none }).isEthernetCard = true ∧
      ∃ bvd,
        baseVirtualEthernetCardToBaseVirtualDevice
            (Device.virtualVmxnet2
              { key := 5, controllerKey := 100, unitNumber := some 8, addressType := "manual",
                macAddress := "00:11:22:33:44:55", backing := .otherBacking "b",
                resourceAllocation := none }) = some bvd ∧
          baseVirtualDeviceToBaseVirtualEthernetCard bvd =
            .ok (Device.virtualVmxnet2
              { key := 5, controllerKey := 100, unitNumber := some 8, addressType := "manual",
                macAddress := "00:11:22:33:44:55", backing := .otherBacking "b",
                resourceAllocation := none }) :=
  ⟨by decide,
    (ethernetCard_conversion_round_trip _).1 (by decide)⟩

/-! ## Helper lemmas for the slot allocator -/

theorem listGetD_set_self (l : List Bool) (i : Nat) (b : Bool) (h : i < l.length) :
    (l.set i b).getD i false = b := by
  induction l generalizing i with
  | nil => simp at h
  | cons x xs ih =>
    cases i with
    | zero => rfl
    | succ n => simpa using ih n (by simpa using h)

theorem listGetD_set_ne (l : List Bool) (i j : Nat) (b : Bool) (h : i ≠ j) :
    (l.set i b).getD j false = l.getD j false := by
  induction l generalizing i j with
  | nil => simp
  | cons x xs ih =>
    cases i with
    | zero =>
      cases j with
      | zero => exact absurd rfl h
      | succ m => simp
    | succ n =>
      cases j with
      | zero => simp
      | succ m => simpa using ih n m (by omega)

theorem listGetD_replicate_false (n j : Nat) :
    (List.replicate n false).getD j false = false := by
  induction n generalizing j with
  | zero => simp
  | succ m ih =>
    cases j with
    | zero => rfl
    | succ k => exact ih k

theorem assignStep_length (ckey : Int) (units : List Bool) (dev : Device) :
    (assignStep ckey units dev).length = units.length := by
  simp only [assignStep]
  split
  · rfl
  · split <;> simp

theorem foldl_assignStep_length (ckey : Int) (l : List Device) (units : List Bool) :
    (List.foldl (assignStep ckey) units l).length = units.length := by
  induction l generalizing units with
  | nil => rfl
  | cons dev rest ih => rw [List.foldl_cons, ih, assignStep_length]

theorem assignStep_getD (ckey : Int) (units : List Bool) (dev : Device)
    (hlen : units.length = 10) (i : Nat) (hi : i < 10) :
    (assignStep ckey units dev).getD i false =
      (units.getD i false ||
        decide (dev.getVirtualDevice.controllerKey = ckey ∧
          dev.getVirtualDevice.unitNumber = some ((i : Int) + pciDeviceOffset))) := by
  unfold assignStep
  simp only [pciDeviceOffset]
  cases hun : dev.getVirtualDevice.unitNumber with
  | none => simp [hun]
  | some un =>
    simp only [hun]
    split
    · rename_i hskip
      have : ¬(dev.getVirtualDevice.controllerKey = ckey ∧ some un = some ((i : Int) + 7)) := by
        rcases hskip with hck | hlt | hge
        · exact fun hc => hck hc.1
        · intro hc
          have : un = (i : Int) + 7 := by injection hc.2
          omega
        · intro hc
          have h1 : un = (i : Int) + 7 := by injection hc.2
          have h2 : (i : Int) < 10 := by exact_mod_cast hi
          omega
      rw [decide_eq_false this, Bool.or_false]
    · rename_i hin
      push_neg at hin
      obtain ⟨hck, hge, hlt⟩ := hin
      by_cases heq : un = (i : Int) + 7
      · have hidx : (un - 7).toNat = i := by omega
        rw [hidx, listGetD_set_self _ _ _ (by omega)]
        simp [hck, heq]
      · have hidx : (un - 7).toNat ≠ i := by omega
        rw [listGetD_set_ne _ _ _ _ hidx]
        have : ¬(dev.getVirtualDevice.controllerKey = ckey ∧ some un = some ((i : Int) + 7)) := by
          intro hc
          exact heq (by injection hc.2)
        rw [decide_eq_false this, Bool.or_false]

theorem foldl_assignStep_getD (ckey : Int) (l : List Device) (units : List Bool)
    (hlen : units.length = 10) (i : Nat) (hi : i < 10) :
    (List.foldl (assignStep ckey) units l).getD i false =
      (units.getD i false || slotOccupied l ckey ((i : Int) + pciDeviceOffset)) := by
  induction l generalizing units with
  | nil => simp [slotOccupied]
  | cons dev rest ih =>
    rw [List.foldl_cons,
      ih (assignStep ckey units dev) (by rw [assignStep_length]; exact hlen),
      assignStep_getD ckey units dev hlen i hi]
    simp only [slotOccupied, List.any_cons]
    cases units.getD i false <;>
      cases hdev : decide (dev.getVirtualDevice.controllerKey = ckey ∧
        dev.getVirtualDevice.unitNumber = some ((i : Int) + pciDeviceOffset)) <;>
      simp_all [slotOccupied]

/-- The occupancy buffer computed by `assignEthernetCard`'s scan reports
exactly `slotOccupied` for each of the 10 slots. -/
theorem assign_units_getD (ckey : Int) (l : List Device) (i : Nat) (hi : i < 10) :
    (List.foldl (assignStep ckey) (List.replicate 10 false) l).getD i false =
      slotOccupied l ckey ((i : Int) + pciDeviceOffset) := by
  rw [foldl_assignStep_getD ckey l _ (by simp) i hi, listGetD_replicate_false]
  simp

theorem firstFree_none_all {us : List Bool} (h : firstFree us = none) :
    ∀ j, j < us.length → us.getD j false = true := by
  induction us with
  | nil => intro j hj; simp at hj
  | cons b rest ih =>
    intro j hj
    cases b with
    | false => simp [firstFree] at h
    | true =>
      simp only [firstFree, if_true, Option.map_eq_none'] at h
      cases j with
      | zero => rfl
      | succ m => simpa using ih h m (by simpa using hj)

theorem firstFree_some_spec {us : List Bool} {i : Nat} (h : firstFree us = some i) :
    i < us.length ∧ us.getD i false = false ∧ ∀ j, j < i → us.getD j false = true := by
  induction us generalizing i with
  | nil => simp [firstFree] at h
  | cons b rest ih =>
    cases b with
    | false =>
      simp only [firstFree, Bool.false_eq_true, if_false, Option.some.injEq] at h
      subst h
      exact ⟨by simp, rfl, fun j hj => by omega⟩
    | true =>
      simp only [firstFree, if_true, Option.map_eq_some'] at h
      obtain ⟨i', hi', rfl⟩ := h
      obtain ⟨hlt, hfalse, hall⟩ := ih hi'
      refine ⟨by simpa using Nat.succ_lt_succ hlt, by simpa using hfalse, ?_⟩
      intro j hj
      cases j with
      | zero => rfl
      | succ m => simpa using hall m (by omega)

theorem getVirtualDevice_setVirtualDevice (d : Device) (b : VirtualDevice) :
    (d.setVirtualDevice b).getVirtualDevice = b := by
  cases d <;> rfl

/-- **C1.** For every device list `l`, PCI controller `c`, and device `d` to
attach: `assignEthernetCard` assigns `d` the lowest unit number in `[7, 17)`
not occupied by any device in `l` whose controller key equals `c`'s key,
never assigning a unit number already occupied on `c`, and returns the
capacity-exceeded error exactly when all 10 slots in `[7, 17)` are occupied
on `c`. -/
theorem assignEthernetCard_lowest_free_slot (l : List Device) (device : Device)
    (c : VirtualController) :
    ((∀ u : Int, 7 ≤ u → u < 17 → slotOccupied l c.key u = true) →
      assignEthernetCard l device c =
        .error "there are no more available slots on the PCI bus") ∧
    (∀ w : Int, 7 ≤ w → w < 17 → slotOccupied l c.key w = false →
      ∃ dev' u, assignEthernetCard l device c = .ok dev' ∧
        dev'.getVirtualDevice.controllerKey = c.key ∧
        dev'.getVirtualDevice.unitNumber = some u ∧
        7 ≤ u ∧ u < 17 ∧ slotOccupied l c.key u = false ∧
        ∀ v : Int, 7 ≤ v → v < u → slotOccupied l c.key v = true) := by
  have hulen : (List.foldl (assignStep c.key) (List.replicate 10 false) l).length = 10 := by
    rw [foldl_assignStep_length]; simp
  constructor
  · intro hall
    have hf : firstFree (List.foldl (assignStep c.key) (List.replicate 10 false) l) = none := by
      cases hf : firstFree (List.foldl (assignStep c.key) (List.replicate 10 false) l) with
      | none => rfl
      | some i =>
        obtain ⟨hlt, hfalse, _⟩ := firstFree_some_spec hf
        rw [hulen] at hlt
        rw [assign_units_getD c.key l i hlt] at hfalse
        have h7 : (7 : Int) ≤ (i : Int) + pciDeviceOffset := by
          simp only [pciDeviceOffset]
          omega
        have h17 : (i : Int) + pciDeviceOffset < 17 := by
          simp only [pciDeviceOffset]
          have : (i : Int) < 10 := by exact_mod_cast hlt
          omega
        rw [hall _ h7 h17] at hfalse
        exact absurd hfalse (by simp)
    simp only [assignEthernetCard, hf]
    norm_num
  · intro w hw7 hw17 hwfree
    have hf : ∃ i, firstFree (List.foldl (assignStep c.key) (List.replicate 10 false) l) = some i := by
      cases hf : firstFree (List.foldl (assignStep c.key) (List.replicate 10 false) l) with
      | some i => exact ⟨i, rfl⟩
      | none =>
        exfalso
        have hj : (w - 7).toNat < 10 := by omega
        have := firstFree_none_all hf (w - 7).toNat (by omega)
        rw [assign_units_getD c.key l _ hj] at this
        have hwi : ((w - 7).toNat : Int) + pciDeviceOffset = w := by
          simp only [pciDeviceOffset]; omega
        rw [hwi, hwfree] at this
        exact absurd this (by simp)
    obtain ⟨i, hf⟩ := hf
    obtain ⟨hlt, hfalse, hmin⟩ := firstFree_some_spec hf
    rw [hulen] at hlt
    have hout : assignEthernetCard l device c =
        .ok (device.setVirtualDevice
          (if device.getVirtualDevice.key = 0 then
            { key := -1, controllerKey := c.key, unitNumber := some ((i : Int) + pciDeviceOffset) }
          else
            { key := device.getVirtualDevice.key, controllerKey := c.key,
              unitNumber := some ((i : Int) + pciDeviceOffset) })) := by
      simp only [assignEthernetCard, hf]
      have hpos : ¬((i : Int) + pciDeviceOffset < 0) := by
        simp only [pciDeviceOffset]; omega
      rw [if_neg hpos]
    refine ⟨_, (i : Int) + pciDeviceOffset, hout, ?_, ?_, ?_, ?_, ?_, ?_⟩
    · rw [getVirtualDevice_setVirtualDevice]
      by_cases hkey : device.getVirtualDevice.key = 0 <;> simp [hkey]
    · rw [getVirtualDevice_setVirtualDevice]
      by_cases hkey : device.getVirtualDevice.key = 0 <;> simp [hkey]
    · simp only [pciDeviceOffset]
      omega
    · simp only [pciDeviceOffset]
      have : (i : Int) < 10 := by exact_mod_cast hlt
      omega
    · rw [← assign_units_getD c.key l i hlt]
      exact hfalse
    · intro v hv7 hvlt
      have hji : (v - 7).toNat < i := by
        have : (i : Int) ≥ 0 := by positivity
        simp only [pciDeviceOffset] at hvlt
        omega
      have := hmin (v - 7).toNat hji
      have hvi : ((v - 7).toNat : Int) + pciDeviceOffset = v := by
        simp only [pciDeviceOffset]; omega
      rw [assign_units_getD c.key l _ (by omega), hvi] at this
      exact this

/-- Witness for C1: on an empty device list every slot is free, and the
allocator hands out slot 7 on controller 100. -/
theorem assignEthernetCard_lowest_free_slot_witness :
    ((7 : Int) ≤ 7 ∧ (7 : Int) < 17 ∧
      slotOccupied [] (100 : Int) 7 = false) ∧
    ∃ dev' u, assignEthernetCard []
        (Device.virtualE1000
          { key := 0, controllerKey := 0, unitNumber := none, addressType := "",
            macAddress := "", backing := .otherBacking "", resourceAllocation := none })
        { key := 100 } = .ok dev' ∧
      dev'.getVirtualDevice.controllerKey = (100 : Int) ∧
      dev'.getVirtualDevice.unitNumber = some u ∧
      7 ≤ u ∧ u < 17 ∧ slotOccupied [] (100 : Int) u = false ∧
      ∀ v : Int, 7 ≤ v → v < u → slotOccupied [] (100 : Int) v = true :=
  ⟨⟨by decide, by decide, by decide⟩,
    (assignEthernetCard_lowest_free_slot []
      (Device.virtualE1000
        { key := 0, controllerKey := 0, unitNumber := none, addressType := "",
          macAddress := "", backing := .otherBacking "", resourceAllocation := none })
      { key := 100 }).2 7 (by decide) (by decide) (by decide)⟩

/-- **C5 (amended).** For every device list `l`, controller `c`, and device
`d`: a successful `assignEthernetCard` run returns `d` with exactly its
`controllerKey`, `unitNumber` and `key` fields replaced — the key only when
it was still 0, in which case it becomes the `-1` pending-creation
placeholder — and every other field of `d` untouched; `l` itself is only
read, never written (the function's only output is the updated device). -/
theorem assignEthernetCard_frame (l : List Device) (device : Device) (c : VirtualController)
    (dev' : Device) (h : assignEthernetCard l device c = .ok dev') :
    ∃ u : Int, dev' = device.setVirtualDevice
      { key := if device.getVirtualDevice.key = 0 then -1 else device.getVirtualDevice.key,
        controllerKey := c.key, unitNumber := some u } := by
  revert h
  simp only [assignEthernetCard]
  cases hf : firstFree (List.foldl (assignStep c.key) (List.replicate 10 false) l) with
  | none =>
    intro h
    norm_num at h
    exact Except.noConfusion h
  | some i =>
    have hpos : ¬((i : Int) + pciDeviceOffset < 0) := by
      simp only [pciDeviceOffset]
      omega
    rw [if_neg hpos]
    intro h
    injection h with h
    subst h
    refine ⟨(i : Int) + pciDeviceOffset, ?_⟩
    by_cases hkey : device.getVirtualDevice.key = 0 <;> simp [hkey]

/-- Witness for the amended C5: a concrete run on an empty list, with the
returned device spelled out. -/
theorem assignEthernetCard_frame_witness :
    ∃ u : Int,
      Device.virtualE1000
          { key := -1, controllerKey := 100, unitNumber := some 7, addressType := "a",
            macAddress := "m", backing := .otherBacking "b", resourceAllocation := none } =
        (Device.virtualE1000
          { key := 0, controllerKey := 0, unitNumber := none, addressType := "a",
            macAddress := "m", backing := .otherBacking "b", resourceAllocation := none
            }).setVirtualDevice
          { key := if (0 : Int) = 0 then -1 else 0, controllerKey := 100,
            unitNumber := some u } :=
  assignEthernetCard_frame []
    (Device.virtualE1000
      { key := 0, controllerKey := 0, unitNumber := none, addressType := "a",
        macAddress := "m", backing := .otherBacking "b", resourceAllocation := none })
    { key := 100 }
    (Device.virtualE1000
      { key := -1, controllerKey := 100, unitNumber := some 7, addressType := "a",
        macAddress := "m", backing := .otherBacking "b", resourceAllocation := none })
    rfl

/-- **C5 counterexample.** The claim "the device's key field is unchanged by
allocation" fails: on a device whose key is still 0, `assignEthernetCard`
sets the key to -1. -/
theorem assignEthernetCard_changes_key_counterexample :
    (assignEthernetCard []
        (Device.virtualE1000
          { key := 0, controllerKey := 0, unitNumber := none, addressType := "a",
            macAddress := "m", backing := .otherBacking "b", resourceAllocation := none })
        { key := 100 }).map (fun d => d.getVirtualDevice.key) = .ok (-1) ∧
      (Device.virtualE1000
        { key := 0, controllerKey := 0, unitNumber := none, addressType := "a",
          macAddress := "m", backing := .otherBacking "b",
          resourceAllocation := none }).getVirtualDevice.key = 0 ∧
      (-1 : Int) ≠ 0 :=
  ⟨rfl, rfl, by decide⟩

/-! ## Clone workflow claims -/

/-- **C3.** For every source-VM property set with linked-clone requested,
`validateCloneSnapshots` fails with the no-snapshot error when no snapshot is
present, fails when the root-snapshot count is not exactly 1 or the single
root snapshot has children (the spec's `AmbiguousSnapshot` class, two
distinct messages in the code), fails with the mismatch error when the
current snapshot differs from the root snapshot, and succeeds exactly when
there is one childless root snapshot equal to the current snapshot. -/
theorem validateCloneSnapshots_correct (props : MoVirtualMachine) :
    (props.snapshot = none →
      validateCloneSnapshots props = .error ("virtual machine or template " ++ props.uuid ++
        " must have a snapshot to be used as a linked clone")) ∧
    (∀ si, props.snapshot = some si → si.rootSnapshotList.length ≠ 1 →
      validateCloneSnapshots props = .error ("virtual machine or template " ++ props.uuid ++
        " must have exactly one root snapshot (has: " ++
        toString si.rootSnapshotList.length ++ ")")) ∧
    (∀ si root, props.snapshot = some si → si.rootSnapshotList = [root] →
      root.childSnapshotList ≠ [] →
      validateCloneSnapshots props = .error ("virtual machine or template " ++ props.uuid ++
        "\x27s root snapshot must not have children")) ∧
    (∀ si root, props.snapshot = some si → si.rootSnapshotList = [root] →
      root.childSnapshotList = [] → si.currentSnapshot.value ≠ root.snapshot.value →
      validateCloneSnapshots props = .error ("virtual machine or template " ++ props.uuid ++
        "\x27s current snapshot must match root snapshot")) ∧
    (validateCloneSnapshots props = .ok () ↔
      ∃ si root, props.snapshot = some si ∧ si.rootSnapshotList = [root] ∧
        root.childSnapshotList = [] ∧ si.currentSnapshot.value = root.snapshot.value) := by
  refine ⟨?_, ?_, ?_, ?_, ?_⟩
  · intro h
    simp [validateCloneSnapshots, h]
  · intro si hsi hcount
    simp only [validateCloneSnapshots, hsi]
    cases hl : si.rootSnapshotList with
    | nil => rfl
    | cons root rest =>
      cases rest with
      | nil =>
        rw [hl] at hcount
        simp at hcount
      | cons b bs => rfl
  · intro si root hsi hroot hchild
    simp only [validateCloneSnapshots, hsi, hroot]
    rw [if_pos (List.length_pos.mpr hchild)]
  · intro si root hsi hroot hchild hmis
    simp only [validateCloneSnapshots, hsi, hroot]
    rw [if_neg (by simp [hchild]), if_pos hmis]
  · constructor
    · intro h
      cases hs : props.snapshot with
      | none => simp [validateCloneSnapshots, hs] at h
      | some si =>
        cases hl : si.rootSnapshotList with
        | nil => simp [validateCloneSnapshots, hs, hl] at h
        | cons root rest =>
          cases rest with
          | cons b bs => simp [validateCloneSnapshots, hs, hl] at h
          | nil =>
            simp only [validateCloneSnapshots, hs, hl] at h
            split at h
            · exact Except.noConfusion h
            · split at h
              · exact Except.noConfusion h
              · rename_i hlen hne
                push_neg at hne
                refine ⟨si, root, rfl, hl, ?_, hne⟩
                simpa using hlen
    · rintro ⟨si, root, hs, hl, hchild, hcur⟩
      simp [validateCloneSnapshots, hs, hl, hchild, hcur]

/-- Witness for C3: a VM with no snapshot fails with the no-snapshot
message. -/
theorem validateCloneSnapshots_correct_witness :
    ({ uuid := "u", powerState := "poweredOff", snapshot := none } :
        MoVirtualMachine).snapshot = none ∧
      validateCloneSnapshots { uuid := "u", powerState := "poweredOff", snapshot := none } =
        .error ("virtual machine or template " ++ "u" ++
          " must have a snapshot to be used as a linked clone") :=
  ⟨rfl,
    (validateCloneSnapshots_correct
      { uuid := "u", powerState := "poweredOff", snapshot := none }).1 rfl⟩

/-- A concrete clone environment whose source VM is powered on yet carries a
perfectly valid linked-clone snapshot topology (one childless root snapshot
equal to the current snapshot), with every external lookup succeeding. -/
def poweredOnCloneEnv : CloneEnv :=
  { datastoreFromID := fun _ => .ok { value := "datastore-11" },
    vmFromUUID := fun _ => .ok 0,
    vmProperties := fun _ =>
      .ok { uuid := "42-uuid", powerState := "poweredOn",
            snapshot := some
              { currentSnapshot := { value := "snapshot-5" },
                rootSnapshotList :=
                  [{ snapshot := { value := "snapshot-5" }, childSnapshotList := [] }] } },
    diskCloneValidate := .ok (),
    diskCloneRelocate := .ok ["disk-0-relocator"] }

/-- The clone configuration used with `poweredOnCloneEnv`: linked clone
requested. -/
def poweredOnCloneData : CloneResourceData :=
  { datastoreId := "ds-id", templateUuid := "42-uuid", linkedClone := true }

/-- **C4 counterexample.** With a powered-on source VM and linked-clone
requested, `ExpandVirtualMachineCloneSpec` does not fail at all — it builds
the clone spec successfully, because it performs no power-state check.  This
refutes the claim that it fails with the powered-off error before any
snapshot check. -/
theorem ExpandVirtualMachineCloneSpec_poweredOn_counterexample :
    (poweredOnCloneEnv.vmProperties 0).map (fun p => p.powerState) = .ok "poweredOn" ∧
      "poweredOn" ≠ VirtualMachinePowerStatePoweredOff ∧
      ExpandVirtualMachineCloneSpec poweredOnCloneEnv poweredOnCloneData =
        .ok { location :=
                { datastore := some { value := "datastore-11" },
                  diskMoveType := "createNewChildDiskBacking",
                  disk := ["disk-0-relocator"] },
              snapshot := some { value := "snapshot-5" } } :=
  ⟨rfl, by decide, rfl⟩

/-- **C4 (amended).** The power-state precondition lives in
`ValidateVirtualMachineClone`, not in `ExpandVirtualMachineCloneSpec`: for
every source VM that is not in the powered-off state,
`ValidateVirtualMachineClone` fails with the powered-off error before any
snapshot check runs (the conclusion holds for every snapshot state and
whether or not linked-clone is requested), while
`ExpandVirtualMachineCloneSpec` itself performs no power-state check (see
the counterexample, where it succeeds on a powered-on source). -/
theorem ValidateVirtualMachineClone_power_check_first (env : CloneEnv)
    (d : CloneResourceData) (vm : Nat) (vprops : MoVirtualMachine)
    (h1 : env.vmFromUUID d.templateUuid = .ok vm)
    (h2 : env.vmProperties vm = .ok vprops)
    (h3 : vprops.powerState ≠ VirtualMachinePowerStatePoweredOff) :
    ValidateVirtualMachineClone env d =
      .error ("virtual machine " ++ d.templateUuid ++
        " must be powered off to be used as a source for cloning") := by
  simp only [ValidateVirtualMachineClone, h1, h2]
  rw [if_pos h3]

/-- Witness for the amended C4 on the concrete powered-on environment. -/
theorem ValidateVirtualMachineClone_power_check_first_witness :
    poweredOnCloneEnv.vmFromUUID "42-uuid" = .ok 0 ∧
      (poweredOnCloneEnv.vmProperties 0).map (fun p => p.powerState) = .ok "poweredOn" ∧
      ValidateVirtualMachineClone poweredOnCloneEnv poweredOnCloneData =
        .error ("virtual machine " ++ "42-uuid" ++
          " must be powered off to be used as a source for cloning") :=
  ⟨rfl, rfl,
    ValidateVirtualMachineClone_power_check_first poweredOnCloneEnv poweredOnCloneData 0
      _ rfl rfl (by decide)⟩

/-- A concrete clone environment with a powered-off source VM carrying the
same valid snapshot topology, with every external lookup succeeding. -/
def poweredOffCloneEnv : CloneEnv :=
  { datastoreFromID := fun _ => .ok { value := "datastore-11" },
    vmFromUUID := fun _ => .ok 0,
    vmProperties := fun _ =>
      .ok { uuid := "42-uuid", powerState := "poweredOff",
            snapshot := some
              { currentSnapshot := { value := "snapshot-5" },
                rootSnapshotList :=
                  [{ snapshot := { value := "snapshot-5" }, childSnapshotList := [] }] } },
    diskCloneValidate := .ok (),
    diskCloneRelocate := .ok ["disk-0-relocator"] }

/-- **C8.** `ExpandVirtualMachineCloneSpec` sets the clone spec's target
datastore to the resolved datastore reference; exactly when linked-clone is
requested it additionally sets the spec's snapshot reference to the source
VM's current snapshot and the disk move-mode to
`createNewChildDiskBacking` — when linked-clone is not requested, the
snapshot reference and the disk move-mode keep their zero values. -/
theorem ExpandVirtualMachineCloneSpec_fields (env : CloneEnv) (d : CloneResourceData)
    (ds : ManagedObjectReference) (vm : Nat) (vprops : MoVirtualMachine) (rel : List String)
    (hds : env.datastoreFromID d.datastoreId = .ok ds)
    (hvm : env.vmFromUUID d.templateUuid = .ok vm)
    (hp : env.vmProperties vm = .ok vprops)
    (hrel : env.diskCloneRelocate = .ok rel) :
    (d.linkedClone = false →
      ExpandVirtualMachineCloneSpec env d =
        .ok { location := { datastore := some ds, diskMoveType := "", disk := rel },
              snapshot := none }) ∧
    (∀ si root, d.linkedClone = true → vprops.snapshot = some si →
      si.rootSnapshotList = [root] → root.childSnapshotList = [] →
      si.currentSnapshot.value = root.snapshot.value →
      ExpandVirtualMachineCloneSpec env d =
        .ok { location :=
                { datastore := some ds,
                  diskMoveType :=
                    VirtualMachineRelocateDiskMoveOptionsCreateNewChildDiskBacking,
                  disk := rel },
              snapshot := some si.currentSnapshot }) := by
  constructor
  · intro hlc
    simp [ExpandVirtualMachineCloneSpec, hds, hvm, hp, hrel, hlc]
  · intro si root hlc hsi hroot hchild hcur
    have hval : validateCloneSnapshots vprops = .ok () := by
      simp [validateCloneSnapshots, hsi, hroot, hchild, hcur]
    simp [ExpandVirtualMachineCloneSpec, hds, hvm, hp, hrel, hlc, hval, hsi]

/-- Witness for C8: the linked-clone branch on the concrete powered-off
environment. -/
theorem ExpandVirtualMachineCloneSpec_fields_witness :
    poweredOffCloneEnv.datastoreFromID "ds-id" = .ok { value := "datastore-11" } ∧
      ExpandVirtualMachineCloneSpec poweredOffCloneEnv
          { datastoreId := "ds-id", templateUuid := "42-uuid", linkedClone := true } =
        .ok { location :=
                { datastore := some { value := "datastore-11" },
                  diskMoveType :=
                    VirtualMachineRelocateDiskMoveOptionsCreateNewChildDiskBacking,
                  disk := ["disk-0-relocator"] },
              snapshot := some { value := "snapshot-5" } } :=
  ⟨rfl,
    (ExpandVirtualMachineCloneSpec_fields poweredOffCloneEnv
        { datastoreId := "ds-id", templateUuid := "42-uuid", linkedClone := true }
        { value := "datastore-11" } 0 _ ["disk-0-relocator"]
        rfl rfl rfl rfl).2
      _ _ rfl rfl rfl rfl rfl⟩

/-! ## Read claims -/

/-- **C6.** For every device list containing the subresource's device (as an
ethernet card), `Read` dispatches on the device's backing kind — standard
network backing, NSX/opaque-network backing, or distributed virtual port
backing — resolving and storing a canonical network identifier in each case,
and for any other backing kind returns the unsupported-backing error naming
the backing type. -/
theorem Read_backing_dispatch (r : NetworkInterfaceSubresource) (l : List Device)
    (vd : Device)
    (hfind : findVirtualDevice l r.data.key = .ok vd)
    (heth : vd.isEthernetCard = true) :
    (∀ ref, vd.getVirtualEthernetCard.backing = .network (some ref) →
      ∃ d, r.Read l = .ok d ∧ d.networkId = ref.value) ∧
    (∀ onid onet, vd.getVirtualEthernetCard.backing = .nsxNetwork onid →
      r.nsxFromNetworkID onid = .ok onet →
      ∃ d, r.Read l = .ok d ∧ d.networkId = onet.value) ∧
    (∀ sw pgk pg, vd.getVirtualEthernetCard.backing = .distributedVirtualPort sw pgk →
      r.dvPortgroupFromKey sw pgk = .ok pg →
      ∃ d, r.Read l = .ok d ∧ d.networkId = pg.value) ∧
    (∀ t, vd.getVirtualEthernetCard.backing = .otherBacking t →
      r.Read l = .error ("unknown network interface backing " ++ t)) := by
  have hconv := isEthernetCard_toBaseVirtualEthernetCard vd heth
  refine ⟨?_, ?_, ?_, ?_⟩
  · intro ref hback
    simp only [NetworkInterfaceSubresource.Read, hfind, hconv, hback]
    cases halloc : vd.getVirtualEthernetCard.resourceAllocation <;>
      exact ⟨_, rfl, rfl⟩
  · intro onid onet hback hres
    simp only [NetworkInterfaceSubresource.Read, hfind, hconv, hback, hres]
    cases halloc : vd.getVirtualEthernetCard.resourceAllocation <;>
      exact ⟨_, rfl, rfl⟩
  · intro sw pgk pg hback hres
    simp only [NetworkInterfaceSubresource.Read, hfind, hconv, hback, hres]
    cases halloc : vd.getVirtualEthernetCard.resourceAllocation <;>
      exact ⟨_, rfl, rfl⟩
  · intro t hback
    simp only [NetworkInterfaceSubresource.Read, hfind, hconv, hback]

/-- A concrete ethernet card with standard network backing, used by the
`Read` witnesses. -/
def sampleNic : Device :=
  Device.virtualE1000
    { key := 500, controllerKey := 100, unitNumber := some 7, addressType := "manual",
      macAddress := "00:50:56:00:00:01", backing := .network (some { value := "network-7" }),
      resourceAllocation := none }

/-- A concrete network-interface subresource whose persisted key points at
`sampleNic`, used by the `Read` witnesses. -/
def sampleSubresource : NetworkInterfaceSubresource :=
  { data := { networkId := "old", adapterType := "e1000", useStaticMac := false,
              macAddress := "", bandwidthLimit := -1, bandwidthReservation := 0,
              bandwidthShareLevel := "normal", bandwidthShareCount := 0, key := 500 },
    hasChangeDeviceType := false, hasChangeUseStaticMac := false, apiType := "VirtualCenter",
    nsxFromNetworkID := fun _ => .error "no nsx resolver",
    dvPortgroupFromKey := fun _ _ => .error "no dvs resolver" }

/-- Witness for C6: `Read` resolves the standard network backing of
`sampleNic` and stores its reference value. -/
theorem Read_backing_dispatch_witness :
    findVirtualDevice [sampleNic] sampleSubresource.data.key = .ok sampleNic ∧
      sampleNic.isEthernetCard = true ∧
      ∃ d, sampleSubresource.Read [sampleNic] = .ok d ∧ d.networkId = "network-7" :=
  ⟨rfl, rfl,
    (Read_backing_dispatch sampleSubresource [sampleNic] sampleNic rfl rfl).1
      { value := "network-7" } rfl⟩

/-- **C9.** For every device list containing the subresource's device as a
supported ethernet card (with a resolvable standard backing so that the rest
of `Read` succeeds), `Read` never fails because of the adapter kind itself:
it sets `adapter_type` to `"vmxnet3"` for `VirtualVmxnet3`, `"e1000"` for
`VirtualE1000`, and the fallback `"unknown"` for every other recognized
ethernet-card type (`VirtualE1000e`, `VirtualPCNet32`,
`VirtualSriovEthernetCard`, `VirtualVmxnet2`), rather than returning an
error. -/
theorem Read_adapter_type_mapping (r : NetworkInterfaceSubresource) (l : List Device)
    (vd : Device) (ref : ManagedObjectReference)
    (hfind : findVirtualDevice l r.data.key = .ok vd)
    (hback : vd.getVirtualEthernetCard.backing = .network (some ref)) :
    (∀ c, vd = .virtualVmxnet3 c →
      ∃ d, r.Read l = .ok d ∧ d.adapterType = networkInterfaceSubresourceTypeVmxnet3) ∧
    (∀ c, vd = .virtualE1000 c →
      ∃ d, r.Read l = .ok d ∧ d.adapterType = networkInterfaceSubresourceTypeE1000) ∧
    (∀ c, vd = .virtualE1000e c →
      ∃ d, r.Read l = .ok d ∧ d.adapterType = networkInterfaceSubresourceTypeUnknown) ∧
    (∀ c, vd = .virtualPCNet32 c →
      ∃ d, r.Read l = .ok d ∧ d.adapterType = networkInterfaceSubresourceTypeUnknown) ∧
    (∀ c, vd = .virtualSriovEthernetCard c →
      ∃ d, r.Read l = .ok d ∧ d.adapterType = networkInterfaceSubresourceTypeUnknown) ∧
    (∀ c, vd = .virtualVmxnet2 c →
      ∃ d, r.Read l = .ok d ∧ d.adapterType = networkInterfaceSubresourceTypeUnknown) := by
  refine ⟨?_, ?_, ?_, ?_, ?_, ?_⟩ <;>
    · rintro c rfl
      have hb : c.backing = .network (some ref) := by
        simpa [Device.getVirtualEthernetCard] using hback
      simp only [NetworkInterfaceSubresource.Read, hfind,
        baseVirtualDeviceToBaseVirtualEthernetCard, Device.getVirtualEthernetCard, hb]
      cases halloc : c.resourceAllocation <;> exact ⟨_, rfl, rfl⟩

/-- A concrete `VirtualE1000e` card with standard network backing, used by
the C9 witness to exercise the "unknown" fallback. -/
def sampleNicE1000e : Device :=
  Device.virtualE1000e
    { key := 500, controllerKey := 100, unitNumber := some 7, addressType := "manual",
      macAddress := "00:50:56:00:00:01", backing := .network (some { value := "network-7" }),
      resourceAllocation := none }

/-- Witness for C9: a `VirtualE1000e` card exercises the `"unknown"`
fallback without an error. -/
theorem Read_adapter_type_mapping_witness :
    findVirtualDevice [sampleNicE1000e] sampleSubresource.data.key = .ok sampleNicE1000e ∧
      ∃ d, sampleSubresource.Read [sampleNicE1000e] = .ok d ∧
        d.adapterType = networkInterfaceSubresourceTypeUnknown :=
  ⟨rfl,
    (Read_adapter_type_mapping sampleSubresource [sampleNicE1000e] sampleNicE1000e
        { value := "network-7" } rfl rfl).2.2.1 _ rfl⟩

/-! ## Update claims -/

theorem getVirtualDevice_withCard (d : Device) (c : VirtualEthernetCard)
    (h : d.isEthernetCard = true) :
    (d.withCard c).getVirtualDevice =
      { key := c.key, controllerKey := c.controllerKey, unitNumber := c.unitNumber } := by
  cases d <;> simp_all [Device.isEthernetCard, Device.withCard, Device.getVirtualDevice,
    Device.getVirtualEthernetCard]

theorem configSpec_add (ds : List Device) :
    configSpec ds VirtualDeviceConfigSpecOperationAdd =
      .ok (ds.map fun d => { operation := VirtualDeviceConfigSpecOperationAdd, device := d }) := by
  unfold configSpec
  rw [if_pos (Or.inl rfl)]

theorem configSpec_edit (ds : List Device) :
    configSpec ds VirtualDeviceConfigSpecOperationEdit =
      .ok (ds.map fun d => { operation := VirtualDeviceConfigSpecOperationEdit, device := d }) := by
  unfold configSpec
  rw [if_pos (Or.inr (Or.inl rfl))]

theorem configSpec_remove (ds : List Device) :
    configSpec ds VirtualDeviceConfigSpecOperationRemove =
      .ok (ds.map fun d => { operation := VirtualDeviceConfigSpecOperationRemove, device := d }) := by
  unfold configSpec
  rw [if_pos (Or.inr (Or.inr rfl))]

/-- Shape of `Update` on the force-replace path: a "remove" spec for the old
device followed by an "add" spec for a device that keeps the old controller
key and unit number and carries a fresh negative key. -/
theorem Update_replacement_shape (r : NetworkInterfaceSubresource) (l : List Device)
    (vd nd : Device)
    (hfind : findVirtualDevice l r.data.key = .ok vd)
    (heth : vd.isEthernetCard = true)
    (hchange : r.hasChangeDeviceType = true)
    (hcreate : createEthernetCard r.data.adapterType vd.getVirtualEthernetCard.backing = .ok nd) :
    ∃ d, r.Update l =
        .ok [{ operation := VirtualDeviceConfigSpecOperationRemove, device := vd },
             { operation := VirtualDeviceConfigSpecOperationAdd, device := d }] ∧
      d.getVirtualDevice.controllerKey = vd.getVirtualEthernetCard.controllerKey ∧
      d.getVirtualDevice.unitNumber = vd.getVirtualEthernetCard.unitNumber ∧
      d.getVirtualDevice.key = newKey l := by
  obtain ⟨hndeth, hndcard⟩ := createEthernetCard_ok hcreate
  have hconv := isEthernetCard_toBaseVirtualEthernetCard vd heth
  have hbvd := isEthernetCard_toBaseVirtualDevice vd heth
  simp only [NetworkInterfaceSubresource.Update, hfind, hconv, hchange, if_true, hcreate,
    hndcard, hbvd, configSpec_remove, List.map, isEthernetCard_withCard, hndeth,
    isEthernetCard_toBaseVirtualEthernetCard, isEthernetCard_toBaseVirtualDevice,
    getVirtualEthernetCard_withCard, newKey_neg l, configSpec_add, List.nil_append,
    List.singleton_append]
  cases hun : vd.getVirtualEthernetCard.unitNumber <;>
    cases hmac : r.hasChangeUseStaticMac <;>
    simp only [Bool.false_eq_true, if_false, if_true] <;>
    [skip; cases hstat : r.data.useStaticMac; skip; cases hstat : r.data.useStaticMac] <;>
    try simp only [Bool.false_eq_true, if_false, if_true]
  all_goals try (by_cases happ : r.apiType = "VirtualCenter" <;>
    [rw [if_neg (fun hne => hne happ)]; rw [if_pos happ]])
  all_goals rw [if_pos (newKey_neg l), configSpec_add]
  all_goals refine ⟨_, rfl, ?_, ?_, ?_⟩
  all_goals simp [getVirtualDevice_withCard, isEthernetCard_withCard, hndeth]

/-- **C2.** For every device list and network-interface subresource whose
existing device sits at controller key `K` and unit number `U`: when the
force-replace oracle (`HasChange("device_type")`) fires, `Update` emits a
"remove" change spec for the old device and an "add" change spec for a newly
fabricated device whose controller key equals `K` and whose unit number
equals `U` (same slot preserved across the replacement), with the remaining
attribute changes applied to the new device. -/
theorem Update_force_replace_preserves_slot (r : NetworkInterfaceSubresource) (l : List Device)
    (vd nd : Device) (K U : Int)
    (hfind : findVirtualDevice l r.data.key = .ok vd)
    (heth : vd.isEthernetCard = true)
    (hchange : r.hasChangeDeviceType = true)
    (hK : vd.getVirtualEthernetCard.controllerKey = K)
    (hU : vd.getVirtualEthernetCard.unitNumber = some U)
    (hcreate : createEthernetCard r.data.adapterType vd.getVirtualEthernetCard.backing = .ok nd) :
    ∃ d, r.Update l =
        .ok [{ operation := VirtualDeviceConfigSpecOperationRemove, device := vd },
             { operation := VirtualDeviceConfigSpecOperationAdd, device := d }] ∧
      d.getVirtualDevice.controllerKey = K ∧
      d.getVirtualDevice.unitNumber = some U := by
  obtain ⟨d, hupd, hck, hun, hkey⟩ := Update_replacement_shape r l vd nd hfind heth hchange hcreate
  exact ⟨d, hupd, by rw [hck, hK], by rw [hun, hU]⟩

/-- A concrete subresource with the force-replace oracle fired and the
declared adapter type changed to `vmxnet3`, used by the C2 witness. -/
def replaceSubresource : NetworkInterfaceSubresource :=
  { data := { networkId := "network-7", adapterType := "vmxnet3", useStaticMac := false,
              macAddress := "", bandwidthLimit := -1, bandwidthReservation := 0,
              bandwidthShareLevel := "normal", bandwidthShareCount := 0, key := 500 },
    hasChangeDeviceType := true, hasChangeUseStaticMac := false, apiType := "VirtualCenter",
    nsxFromNetworkID := fun _ => .error "no nsx resolver",
    dvPortgroupFromKey := fun _ _ => .error "no dvs resolver" }

/-- Witness for C2: replacing `sampleNic` (controller 100, unit 7) with a
`vmxnet3` card keeps controller 100 and unit 7. -/
theorem Update_force_replace_preserves_slot_witness :
    findVirtualDevice [sampleNic] replaceSubresource.data.key = .ok sampleNic ∧
      replaceSubresource.hasChangeDeviceType = true ∧
      ∃ d, replaceSubresource.Update [sampleNic] =
          .ok [{ operation := VirtualDeviceConfigSpecOperationRemove, device := sampleNic },
               { operation := VirtualDeviceConfigSpecOperationAdd, device := d }] ∧
        d.getVirtualDevice.controllerKey = 100 ∧
        d.getVirtualDevice.unitNumber = some 7 :=
  ⟨rfl, rfl,
    Update_force_replace_preserves_slot replaceSubresource [sampleNic] sampleNic
      (Device.virtualVmxnet3
        { key := 0, controllerKey := 0, unitNumber := none, addressType := "",
          macAddress := "", backing := .network (some { value := "network-7" }),
          resourceAllocation := none })
      100 7 rfl rfl rfl rfl rfl rfl⟩

/-- **C7.** For every device list containing the subresource's device: when
the device's key is negative at update time (pending creation in the same
pass), `Update` emits its final change spec with the "add" operation, and
when the key is non-negative it emits the "edit" operation; the
force-replace replacement path always yields a negative key and hence
"add". -/
theorem Update_add_iff_negative_key (r : NetworkInterfaceSubresource) (l : List Device)
    (vd : Device)
    (hfind : findVirtualDevice l r.data.key = .ok vd)
    (heth : vd.isEthernetCard = true) :
    (r.hasChangeDeviceType = false →
      ∃ d, r.Update l =
        .ok [{ operation :=
                 if vd.getVirtualEthernetCard.key < 0 then VirtualDeviceConfigSpecOperationAdd
                 else VirtualDeviceConfigSpecOperationEdit,
               device := d }]) ∧
    (r.hasChangeDeviceType = true →
      ∀ nd, createEthernetCard r.data.adapterType vd.getVirtualEthernetCard.backing = .ok nd →
      ∃ d, r.Update l =
          .ok [{ operation := VirtualDeviceConfigSpecOperationRemove, device := vd },
               { operation := VirtualDeviceConfigSpecOperationAdd, device := d }] ∧
        d.getVirtualDevice.key < 0) := by
  have hconv := isEthernetCard_toBaseVirtualEthernetCard vd heth
  constructor
  · intro hchange
    simp only [NetworkInterfaceSubresource.Update, hfind, hconv, hchange, Bool.false_eq_true,
      if_false, isEthernetCard_toBaseVirtualDevice, isEthernetCard_withCard, heth,
      getVirtualEthernetCard_withCard, List.nil_append]
    cases hmac : r.hasChangeUseStaticMac <;>
      try simp only [Bool.false_eq_true, if_false, if_true]
    all_goals try (cases hstat : r.data.useStaticMac <;>
      try simp only [Bool.false_eq_true, if_false, if_true])
    all_goals try (by_cases happ : r.apiType = "VirtualCenter" <;>
      [rw [if_neg (fun hne => hne happ)]; rw [if_pos happ]])
    all_goals by_cases hkey : vd.getVirtualEthernetCard.key < 0
    all_goals try (rw [if_pos hkey, configSpec_add]; exact ⟨_, rfl⟩)
    all_goals try (rw [if_neg hkey, configSpec_edit]; exact ⟨_, rfl⟩)
  · intro hchange nd hcreate
    obtain ⟨d, hupd, _, _, hkey⟩ :=
      Update_replacement_shape r l vd nd hfind heth hchange hcreate
    refine ⟨d, hupd, ?_⟩
    rw [hkey]
    exact newKey_neg l

/-- Witness for C7: `sampleNic` has the positive key 500, so the no-replace
path emits an "edit" change spec. -/
theorem Update_add_iff_negative_key_witness :
    findVirtualDevice [sampleNic] sampleSubresource.data.key = .ok sampleNic ∧
      sampleSubresource.hasChangeDeviceType = false ∧
      ∃ d, sampleSubresource.Update [sampleNic] =
        .ok [{ operation := VirtualDeviceConfigSpecOperationEdit, device := d }] :=
  ⟨rfl, rfl,
    (Update_add_iff_negative_key sampleSubresource [sampleNic] sampleNic rfl rfl).1 rfl⟩
